import Mathlib

/-!
Shallow embedding of the sapsolman_jobmon sources: snapshot_io.py, agent.py,
sap_api.py and dashboard.py.  Python strings are modelled as Lean String
(lists of characters), Python dicts as functions into Option, Python ints as
Int, and a value that may be absent (None / NaN) as Option.  Fallible or
stateful surroundings (the file system, the RFC connection, json.dumps and
json.loads) are modelled explicitly as data or as function parameters; the
functions under test are translated from the source line by line.
-/

/-! ## Python string helpers (character-list semantics, ASCII) -/

/-- Python s.strip: drop whitespace at both ends of the string. -/
def pyStrip (s : String) : String :=
  ⟨((s.data.dropWhile Char.isWhitespace).reverse.dropWhile Char.isWhitespace).reverse⟩

/-- Python s[a:b] character slice. -/
def pySlice (s : String) (a b : Nat) : String :=
  ⟨(s.data.drop a).take (b - a)⟩

/-- Python s.upper for ASCII strings. -/
def pyUpper (s : String) : String :=
  ⟨s.data.map Char.toUpper⟩

/-- Python s.isdigit for ASCII strings: nonempty and all characters digits. -/
def pyIsDigit (s : String) : Bool :=
  !s.data.isEmpty && s.data.all (fun c => c.isDigit)

/-- Python (x or d) for an optional string: None and the empty string are falsy. -/
def pyOr (x : Option String) (d : String) : String :=
  match x with
  | none => d
  | some s => if s = "" then d else s

/-! ## snapshot_io.py -/

/-- File-system model: file contents by path, plus which directories exist.
Paths are plain strings with slash separators. -/
structure FS where
  files : String → Option String
  dirs : String → Bool

/-- Writing (or overwriting) the contents of one file. -/
def fsWriteFile (fs : FS) (p c : String) : FS :=
  { fs with files := fun q => if q = p then some c else fs.files q }

/-- Path.replace / os.replace: atomic rename of src onto dst, one indivisible
step at the file-system level. -/
def fsRename (fs : FS) (src dst : String) : FS :=
  { fs with files := fun q =>
      if q = dst then fs.files src else if q = src then none else fs.files q }

/-- Split a character list at slash separators. -/
def splitSlash (cs : List Char) : List (List Char) :=
  cs.foldr
    (fun c acc =>
      if c = '/' then [] :: acc
      else
        match acc with
        | [] => [[c]]
        | a :: rest => (c :: a) :: rest)
    [[]]

/-- The proper ancestor directories of a slash-separated path, shortest first. -/
def parentDirs (p : String) : List String :=
  let segs := splitSlash p.data
  (List.range (segs.length - 1)).map (fun i => ⟨List.intercalate [ '/' ] (segs.take (i + 1))⟩)

/-- path.parent.mkdir(parents=True, exist_ok=True): create every ancestor
directory of the path; touches no file contents. -/
def fsMkdirParents (fs : FS) (p : String) : FS :=
  { fs with dirs := fun q => if q ∈ parentDirs p then true else fs.dirs q }

/-- path.with_suffix(path.suffix + ".tmp"): the temporary sibling name used by
the atomic writer; appending the extra suffix yields the sibling path. -/
def tmpName (p : String) : String := p ++ ".tmp"

/-- atomic_write_json(path, payload) from snapshot_io.py, as the sequence of
observable file-system states it produces: the mkdir of the parent
directories, then one state per partially-written temporary file (tmp holds
each prefix of the serialized document while write_text is in progress), and
finally the single atomic rename of the temporary file onto the target.
json.dumps is external and is abstracted as the serializer argument. -/
def atomic_write_json (α : Type) (dumps : α → String) (fs : FS) (path : String)
    (payload : α) : List FS :=
  let fs1 := fsMkdirParents fs path
  let content := dumps payload
  (fs1 :: (List.range (content.length + 1)).map
      (fun k => fsWriteFile fs1 (tmpName path) (pySlice content 0 k)))
    ++ [fsRename (fsWriteFile fs1 (tmpName path) content) (tmpName path) path]

/-- Outcome of attempting to read a file: missing (path.exists() is false),
unreadable (read_text raises), or readable with the given contents. -/
inductive FileAccess where
  | missing
  | unreadable
  | readable (contents : String)
deriving DecidableEq

/-- read_json(path, default) from snapshot_io.py: parsed JSON content, or the
caller-supplied default when the file is missing, unreadable, or fails to
parse.  json.loads is external and is abstracted as the parse argument,
returning none where the parser would raise; the Lean function is total, so
every outcome is a normal return. -/
def read_json (V : Type) (parse : String → Option V) (f : FileAccess) (dflt : V) : V :=
  match f with
  | .missing => dflt
  | .unreadable => dflt
  | .readable s =>
    match parse s with
    | some v => v
    | none => dflt

/-! ## agent.py: catalog loading and reconciliation -/

structure JobCatalogRow where
  job_name : String
  job_user : String
  group : String
  expected_duration_sec : Int
  enabled : Bool
deriving DecidableEq

/-- One raw spreadsheet row; none models an empty (NaN) cell. -/
structure RawRow where
  job_name : Option String
  job_user : Option String
  group : Option String
  expected_duration_sec : Option Int
  enabled : Option String
deriving DecidableEq

/-- The raw sheet: its rows plus which (case-normalized) columns are present. -/
structure RawCatalog where
  rows : List RawRow
  hasJobName : Bool
  hasJobUser : Bool
  hasGroup : Bool
  hasExpected : Bool
  hasEnabled : Bool
deriving DecidableEq

/-- pandas astype(str) on a possibly-NaN string cell: NaN prints as "nan". -/
def pyStrCell : Option String → String
  | none => "nan"
  | some s => s

/-- The truthy tokens recognized for the enabled column. -/
def enabledTokens : List String := ["Y", "YES", "TRUE", "1"]

/-- The job_name column after the missing-column fill: a missing column is
created holding the empty string for every row. -/
def rawName (src : RawCatalog) (r : RawRow) : String :=
  if src.hasJobName then pyStrCell r.job_name else ""

/-- Per-row effect of the column-wise normalization in load_job_catalog:
fill missing columns (job_user, group with "", expected_duration_sec with 0,
enabled with "Y"), astype(str).str.strip() the string columns,
fillna(0).astype(int) the expected duration, and coerce enabled through
astype(str).str.upper().isin(["Y", "YES", "TRUE", "1"]). -/
def normRow (src : RawCatalog) (r : RawRow) : JobCatalogRow :=
  { job_name := pyStrip (rawName src r)
    job_user := if src.hasJobUser then pyStrip ((r.job_user).getD "") else ""
    group := if src.hasGroup then pyStrip ((r.group).getD "") else ""
    expected_duration_sec := if src.hasExpected then (r.expected_duration_sec).getD 0 else 0
    enabled := decide (pyUpper (if src.hasEnabled then (r.enabled).getD "Y" else "Y") ∈ enabledTokens) }

/-- load_job_catalog from agent.py: normalize and default the columns, then
drop the rows whose stripped job_name has zero length. -/
def load_job_catalog (src : RawCatalog) : List JobCatalogRow :=
  (src.rows.map (normRow src)).filter (fun row => decide (0 < row.job_name.length))

/-- compute_tracked_jobs from agent.py: the appending loop over catalog rows;
track_state is the parsed track_state.json dict, queried with
track_state.get(name, True). -/
def compute_tracked_jobs (df : List JobCatalogRow) (track_state : String → Option Bool) :
    List (String × String × Int) :=
  df.foldl
    (fun tracked r =>
      if r.enabled && ((track_state r.job_name).getD true) then
        tracked ++ [(r.job_name, r.job_user, r.expected_duration_sec)]
      else tracked)
    []

/-! ## agent.py: AgentController and the polling loop -/

/-- The two threading.Event flags of AgentController. -/
structure CtlState where
  stop_flag : Bool
  pause_flag : Bool
deriving DecidableEq

/-- AgentController.stop: stop_flag.set(); pause_flag.clear(). -/
def CtlState.stop (_ : CtlState) : CtlState :=
  { stop_flag := true, pause_flag := false }

/-- AgentController.pause: pause_flag.set(). -/
def CtlState.pause (c : CtlState) : CtlState :=
  { c with pause_flag := true }

/-- AgentController.resume: pause_flag.clear(). -/
def CtlState.resume (c : CtlState) : CtlState :=
  { c with pause_flag := false }

/-- Control position of the _run_loop thread: run k means the thread is inside
a time.sleep with k ticks still to elapse before it next reaches the while
condition (run 0 = at the while condition, about to examine the flags);
done means the loop has exited. -/
inductive Phase where
  | run (sleepLeft : Nat)
  | done
deriving DecidableEq

/-- Loop thread state: control position plus the controller flags. -/
structure LState where
  phase : Phase
  flags : CtlState
deriving DecidableEq

/-- The sleep used while paused: time.sleep(0.25), in milliseconds. -/
def pauseSleepMs : Nat := 250

/-- Number of pause-poll ticks making up a poll interval given in seconds
(time.sleep(self.poll_interval_sec) discretized at 250 ms). -/
def pollTicksOf (pollIntervalSec : Nat) : Nat :=
  pollIntervalSec * 1000 / pauseSleepMs

/-- One 250 ms tick of _run_loop.  At the while condition (run 0) the thread
examines stop_flag and then pause_flag: stopped means exit, paused means
time.sleep(0.25) and re-check, otherwise it performs the cycle body and enters
the unconditional time.sleep(self.poll_interval_sec), which elapses tick by
tick without ever re-examining the flags.  The flags are set asynchronously by
the controller between ticks; the cycle body itself (fetch and snapshot write)
is not modelled as taking time, since the claims concern only the waits. -/
def loopTick (pollTicks : Nat) (s : LState) : LState :=
  match s.phase with
  | .done => s
  | .run (Nat.succ k) => { s with phase := .run k }
  | .run 0 =>
    if s.flags.stop_flag then { s with phase := .done }
    else if s.flags.pause_flag then { s with phase := .run 0 }
    else { s with phase := .run pollTicks }

/-! ## sap_api.py -/

/-- A backend table cell as the RFC layer may deliver it: absent, a string, or
an integer. -/
inductive Cell where
  | cnone
  | cstr (s : String)
  | cint (n : Int)
deriving DecidableEq

/-- The coercion applied to RUNTIME_SEC and CURRENT_STEP_NO:
int(x) if x not in (None, "") else None, with a failed int() caught and turned
into None.  int(string) is modelled by String.toInt?. -/
def cellToIntOpt : Cell → Option Int
  | .cnone => none
  | .cstr s => if s = "" then none else s.toInt?
  | .cint n => some n

/-- The coercion applied to STEPCNT: int(x or 0).  A non-numeric string would
make int() raise uncaught in the source; no claim touches that path and it is
modelled as 0. -/
def cellOrZeroToInt : Cell → Int
  | .cnone => 0
  | .cstr s => if s = "" then 0 else (s.toInt?).getD 0
  | .cint n => n

/-- One row of ET_JOBS as returned by ZSRE_JOBMON_EXPORT. -/
structure EtJob where
  JOBNAME : Option String
  JOBCOUNT : Option String
  SDLUNAME : Option String
  STATUS_TXT : Option String
  STATUS : Option String
  STRTDATE : Option String
  STRTTIME : Option String
  ENDDATE : Option String
  ENDTIME : Option String
  RUNTIME_SEC : Cell
  CURRENT_STEP_TXT : Option String
  CURRENT_STEP_NO : Cell
  MSG : Option String
deriving DecidableEq

/-- One row of ET_STEPS as returned by ZSRE_JOBMON_EXPORT. -/
structure EtStep where
  JOBNAME : Option String
  JOBCOUNT : Option String
  STEPCNT : Cell
  STEP_TYPE : Option String
  PROGNAME : Option String
  VARIANT : Option String
  STEP_STATUS : Option String
deriving DecidableEq

/-- The normalized step record built from one ET_STEPS row. -/
structure StepRec where
  step_no : Int
  step_type : String
  name : String
  variant : String
  status : String
deriving DecidableEq

/-- The normalized job status record built from one ET_JOBS row. -/
structure JobRec where
  job_name : String
  job_user : String
  tracked : Bool
  status : String
  raw_status : String
  jobcount : String
  last_start : Option String
  last_end : Option String
  next_run : Option String
  runtime_sec : Option Int
  expected_duration_sec : Int
  late_by_sec : Int
  current_step : String
  current_step_runtime_sec : Option Int
  steps : List StepRec
  last_message : String
deriving DecidableEq

/-- The per-step normalization inside the steps_by_key loop. -/
def mkStep (s : EtStep) : StepRec :=
  { step_no := cellOrZeroToInt s.STEPCNT
    step_type := pyOr s.STEP_TYPE "ABAP"
    name := (s.PROGNAME).getD ""
    variant := (s.VARIANT).getD ""
    status := pyOr s.STEP_STATUS "UNKNOWN" }

/-- The grouping key (s.get("JOBNAME", ""), s.get("JOBCOUNT", "")). -/
def stepKey (s : EtStep) : String × String :=
  ((s.JOBNAME).getD "", (s.JOBCOUNT).getD "")

/-- expected_map: the dict built by iterating tracked_jobs, later entries
overwriting earlier ones for the same job name. -/
def expectedMap (tracked : List (String × String × Int)) : String → Option Int :=
  tracked.foldl (fun m t => fun k => if k = t.1 then some t.2.2 else m k) (fun _ => none)

/-- The dt_str helper defined inside fetch_jobs_rfc: strip both tokens, an
8-digit date plus a 6-or-more-digit time formats as a full timestamp, an
8-digit date alone formats as a date, anything else is None. -/
def dt_str (d t : Option String) : Option String :=
  let ds := pyStrip (d.getD "")
  let ts := pyStrip (t.getD "")
  if ds.length = 8 ∧ pyIsDigit ds = true then
    if ts ≠ "" ∧ 6 ≤ ts.length ∧ pyIsDigit ts = true then
      some (pySlice ds 0 4 ++ "-" ++ pySlice ds 4 6 ++ "-" ++ pySlice ds 6 8 ++ "T"
        ++ pySlice ts 0 2 ++ ":" ++ pySlice ts 2 4 ++ ":" ++ pySlice ts 4 6)
    else
      some (pySlice ds 0 4 ++ "-" ++ pySlice ds 4 6 ++ "-" ++ pySlice ds 6 8)
  else
    none

/-- The late_by computation: late_by = 0 unless expected and runtime_sec are
both truthy (nonzero, non-None) and runtime_sec > expected. -/
def lateByCalc (expected : Int) (runtime : Option Int) : Int :=
  match runtime with
  | none => 0
  | some r => if expected ≠ 0 ∧ r ≠ 0 ∧ expected < r then r - expected else 0

/-- The body of the output loop of fetch_jobs_rfc for one ET_JOBS row:
strip the identifying fields, look up the expected duration
(int(expected_map.get(job_name, 0) or 0), the identity on the stored Int),
coerce RUNTIME_SEC, compute late_by, format the timestamps, join the steps by
(job_name, jobcount), and default the display fields. -/
def mkJobRec (tracked : List (String × String × Int)) (et_steps : List EtStep)
    (j : EtJob) : JobRec :=
  let job_name := pyStrip ((j.JOBNAME).getD "")
  let jobcount := pyStrip ((j.JOBCOUNT).getD "")
  let expected := ((expectedMap tracked) job_name).getD 0
  let runtime := cellToIntOpt j.RUNTIME_SEC
  let status_txt := pyOr (some (pyStrip ((j.STATUS_TXT).getD ""))) "UNKNOWN"
  let cur_txt := pyStrip ((j.CURRENT_STEP_TXT).getD "")
  let cur_no := cellToIntOpt j.CURRENT_STEP_NO
  { job_name := job_name
    job_user := pyStrip ((j.SDLUNAME).getD "")
    tracked := true
    status := status_txt
    raw_status := pyStrip ((j.STATUS).getD "")
    jobcount := jobcount
    last_start := dt_str j.STRTDATE j.STRTTIME
    last_end := dt_str j.ENDDATE j.ENDTIME
    next_run := none
    runtime_sec := runtime
    expected_duration_sec := expected
    late_by_sec := lateByCalc expected runtime
    current_step :=
      if cur_no.getD 0 ≠ 0 ∧ cur_txt ≠ "" then
        "Step " ++ toString (cur_no.getD 0) ++ " - " ++ cur_txt
      else if cur_txt ≠ "" then cur_txt
      else ""
    current_step_runtime_sec := none
    steps := (et_steps.filter (fun s => decide (stepKey s = (job_name, jobcount)))).map mkStep
    last_message := pyStrip ((j.MSG).getD "") }

/-- fetch_jobs_rfc from sap_api.py.  The single conn.call round trip is
external; its response tables ET_JOBS and ET_STEPS are passed in as data, and
the output list is built by the appending loop over ET_JOBS exactly as in the
source (the steps_by_key dict with per-key setdefault-append preserves the
per-key order of ET_STEPS, which the filter in mkJobRec reproduces). -/
def fetch_jobs_rfc (tracked : List (String × String × Int)) (et_jobs : List EtJob)
    (et_steps : List EtStep) : List JobRec :=
  et_jobs.foldl (fun out j => out ++ [mkJobRec tracked et_steps j]) []

/-! ## dashboard.py -/

/-- on_source_data_change from dashboard.py: for every (name, tracked) pair of
the displayed table, if the name is truthy, state[str(name)] = bool(tracked);
then the whole mapping is saved in one write.  The track-state dict is
modelled as a function from job name to Option Bool. -/
def trackFoldStep (st : String → Option Bool) (nt : String × Bool) : String → Option Bool :=
  if nt.1 ≠ "" then (fun k => if k = nt.1 then some nt.2 else st k) else st

def on_source_data_change (names : List String) (tracked : List Bool)
    (state : String → Option Bool) : String → Option Bool :=
  (names.zip tracked).foldl trackFoldStep state

/-! ## Concrete scenario data -/

/-- Scenario catalog of claim C3: Z_FI_01 enabled with expected 300,
Z_FI_02 disabled. -/
def catalogC3 : List JobCatalogRow :=
  [⟨"Z_FI_01", "", "", 300, true⟩, ⟨"Z_FI_02", "", "", 0, false⟩]

/-- Scenario overlay of claim C3: Z_FI_01 explicitly untracked. -/
def overlayC3 : String → Option Bool :=
  fun k => if k = "Z_FI_01" then some false else none

/-- A backend job row finishing in 500 seconds. -/
def etJobRun500 : EtJob :=
  { JOBNAME := some "Z_FI_01"
    JOBCOUNT := some "10000000"
    SDLUNAME := some "BTCUSER"
    STATUS_TXT := some "FINISHED"
    STATUS := some "F"
    STRTDATE := some "20260221"
    STRTTIME := some "143000"
    ENDDATE := some "20260221"
    ENDTIME := some "143820"
    RUNTIME_SEC := .cint 500
    CURRENT_STEP_TXT := none
    CURRENT_STEP_NO := .cnone
    MSG := some "Job finished" }

/-- A raw spreadsheet row whose name needs trimming, with empty optional
cells and a lowercase truthy enabled token. -/
def rawC8a : RawRow :=
  { job_name := some "  Z_FI_01  ", job_user := none, group := none,
    expected_duration_sec := none, enabled := some "yes" }

/-- A raw spreadsheet row whose name is blank after trimming. -/
def rawC8b : RawRow :=
  { job_name := some "   ", job_user := none, group := none,
    expected_duration_sec := none, enabled := none }

/-- A raw sheet missing the group and expected_duration_sec columns. -/
def srcC8 : RawCatalog :=
  { rows := [rawC8a, rawC8b], hasJobName := true, hasJobUser := true, hasGroup := false,
    hasExpected := false, hasEnabled := true }

/-- Displayed table names for the dashboard write-back scenario. -/
def namesC9 : List String := ["Z_FI_01"]

/-- Displayed tracked checkboxes for the dashboard write-back scenario. -/
def trackedC9 : List Bool := [false]

/-- A persisted track state holding an entry for a job not displayed. -/
def stateC9 : String → Option Bool := fun k => if k = "Z_OLD" then some true else none

/-! ## Helper lemmas -/

theorem foldlSnocEq {α β : Type} (g : α → β) :
    ∀ (l : List α) (acc : List β),
      l.foldl (fun out x => out ++ [g x]) acc = acc ++ l.map g := by
  intro l
  induction l with
  | nil => intro acc; simp
  | cons x xs ih => intro acc; simp [List.foldl_cons, ih]

theorem foldlSnocFilterEq {α β : Type} (p : α → Bool) (g : α → β) :
    ∀ (l : List α) (acc : List β),
      l.foldl (fun out x => if p x then out ++ [g x] else out) acc
        = acc ++ (l.filter p).map g := by
  intro l
  induction l with
  | nil => intro acc; simp
  | cons x xs ih =>
    intro acc
    by_cases h : p x
    · simp [List.foldl_cons, h, ih, List.filter_cons]
    · simp [List.foldl_cons, h, ih, List.filter_cons]

theorem computeTrackedEq (df : List JobCatalogRow) (ts : String → Option Bool) :
    compute_tracked_jobs df ts
      = (df.filter (fun r => r.enabled && ((ts r.job_name).getD true))).map
          (fun r => (r.job_name, r.job_user, r.expected_duration_sec)) := by
  have h := foldlSnocFilterEq (fun r : JobCatalogRow => r.enabled && ((ts r.job_name).getD true))
    (fun r : JobCatalogRow => (r.job_name, r.job_user, r.expected_duration_sec)) df []
  rw [List.nil_append] at h
  exact h

theorem fetchJobsEqMap (tracked : List (String × String × Int)) (et_jobs : List EtJob)
    (et_steps : List EtStep) :
    fetch_jobs_rfc tracked et_jobs et_steps = et_jobs.map (mkJobRec tracked et_steps) := by
  have h := foldlSnocEq (mkJobRec tracked et_steps) et_jobs []
  rw [List.nil_append] at h
  exact h

theorem expectedMapFoldSkip :
    ∀ (l : List (String × String × Int)) (m : String → Option Int) (k : String),
      k ∉ l.map (fun t => t.1) →
      l.foldl (fun m t => fun q => if q = t.1 then some t.2.2 else m q) m k = m k := by
  intro l
  induction l with
  | nil => intro m k h; rfl
  | cons t ts ih =>
    intro m k h
    simp only [List.map_cons, List.mem_cons] at h
    push_neg at h
    rw [List.foldl_cons, ih _ k h.2]
    simp [h.1]

theorem lateByCalcZero (ro : Option Int) : lateByCalc 0 ro = 0 := by
  cases ro <;> simp [lateByCalc]

theorem loadMemIff (src : RawCatalog) (row : JobCatalogRow) :
    row ∈ load_job_catalog src ↔
      (∃ r ∈ src.rows, normRow src r = row) ∧ 0 < row.job_name.length := by
  simp [load_job_catalog, List.mem_filter, List.mem_map]

theorem trackFoldSkip :
    ∀ (l : List (String × Bool)) (st : String → Option Bool) (k : String),
      k ∉ l.map Prod.fst → l.foldl trackFoldStep st k = st k := by
  intro l
  induction l with
  | nil => intro st k h; rfl
  | cons nt ts ih =>
    intro st k h
    simp only [List.map_cons, List.mem_cons] at h
    push_neg at h
    rw [List.foldl_cons, ih _ k h.2]
    by_cases hc : nt.1 = ""
    · simp [trackFoldStep, hc]
    · simp [trackFoldStep, hc, h.1]

theorem trackFoldNone :
    ∀ (l : List (String × Bool)) (st : String → Option Bool) (k : String),
      l.foldl trackFoldStep st k = none → st k = none := by
  intro l
  induction l with
  | nil => intro st k h; exact h
  | cons nt ts ih =>
    intro st k h
    rw [List.foldl_cons] at h
    have h2 := ih _ k h
    by_cases hc : nt.1 = ""
    · simpa [trackFoldStep, hc] using h2
    · by_cases hk : k = nt.1
      · exfalso; simp [trackFoldStep, hc, hk] at h2
      · simpa [trackFoldStep, hc, hk] using h2

theorem trackFoldChange :
    ∀ (l : List (String × Bool)) (st : String → Option Bool) (k : String),
      l.foldl trackFoldStep st k ≠ st k → k ∈ l.map Prod.fst ∧ k ≠ "" := by
  intro l
  induction l with
  | nil => intro st k h; exact absurd rfl h
  | cons nt ts ih =>
    intro st k h
    rw [List.foldl_cons] at h
    by_cases h1 : ts.foldl trackFoldStep (trackFoldStep st nt) k = trackFoldStep st nt k
    · rw [h1] at h
      by_cases hc : nt.1 = ""
      · exact absurd (by simp [trackFoldStep, hc]) h
      · by_cases hk : k = nt.1
        · exact ⟨by simp [hk], by simpa [hk] using hc⟩
        · exact absurd (by simp [trackFoldStep, hc, hk]) h
    · obtain ⟨hm, hne⟩ := ih _ k h1
      exact ⟨by simp [hm], hne⟩

theorem loopRunIter (p : Nat) (f : CtlState) :
    ∀ (j k : Nat), j ≤ k →
      (loopTick p)^[j] (⟨.run k, f⟩ : LState) = ⟨.run (k - j), f⟩ := by
  intro j
  induction j with
  | zero => intro k h; simp
  | succ j ih =>
    intro k h
    obtain ⟨k1, rfl⟩ : ∃ k1, k = k1 + 1 := ⟨k - 1, by omega⟩
    rw [Function.iterate_succ_apply]
    have h1 : loopTick p (⟨.run (k1 + 1), f⟩ : LState) = ⟨.run k1, f⟩ := rfl
    rw [h1, ih k1 (by omega)]
    have h2 : k1 - j = k1 + 1 - (j + 1) := by omega
    rw [h2]

/-! ## Claim theorems -/

/-- Claim C3: for every catalog and overlay, the reconciled tracked-job list
contains a catalog row iff the row is enabled in the catalog and the overlay
maps its name to true (absent names defaulting to true), the output follows
catalog row order (it equals the filter of the catalog mapped to tuples), and
the concrete scenario with Z_FI_01 overlaid to false and Z_FI_02 disabled
yields the empty tracked list. -/
theorem C3_reconcile :
    (∀ (df : List JobCatalogRow) (ts : String → Option Bool),
      compute_tracked_jobs df ts
        = (df.filter (fun r => r.enabled && ((ts r.job_name).getD true))).map
            (fun r => (r.job_name, r.job_user, r.expected_duration_sec)))
    ∧ (∀ (df : List JobCatalogRow) (ts : String → Option Bool) (x : String × String × Int),
        x ∈ compute_tracked_jobs df ts ↔
          ∃ r ∈ df, r.enabled = true ∧ ((ts r.job_name).getD true) = true
            ∧ x = (r.job_name, r.job_user, r.expected_duration_sec))
    ∧ compute_tracked_jobs catalogC3 overlayC3 = [] := by
  refine ⟨computeTrackedEq, ?_, by decide⟩
  intro df ts x
  rw [computeTrackedEq]
  simp only [List.mem_map, List.mem_filter, Bool.and_eq_true]
  constructor
  · rintro ⟨r, ⟨hr, he, hg⟩, rfl⟩
    exact ⟨r, hr, he, hg, rfl⟩
  · rintro ⟨r, hr, he, hg, rfl⟩
    exact ⟨r, ⟨hr, he, hg⟩, rfl⟩

set_option maxRecDepth 4000 in
/-- Claim C1 counterexample: with a 30 s poll interval, a stop signal raised
just as the inter-cycle sleep begins (state run 120 with the stop flag set) is
not observed after one pause-poll tick of 250 ms, nor even after 120 ticks
(the whole 30 s sleep); the loop exits only at tick 121.  So the wait between
two cycles does not end as soon as a stop or pause signal arrives, and stop is
not observable within one pause-poll interval while the loop is sleeping. -/
theorem C1_counterexample :
    (((loopTick (pollTicksOf 30))^[1]
        (⟨.run (pollTicksOf 30), CtlState.stop ⟨false, false⟩⟩ : LState)).phase ≠ .done)
    ∧ (((loopTick (pollTicksOf 30))^[pollTicksOf 30]
        (⟨.run (pollTicksOf 30), CtlState.stop ⟨false, false⟩⟩ : LState)).phase ≠ .done)
    ∧ (((loopTick (pollTicksOf 30))^[pollTicksOf 30 + 1]
        (⟨.run (pollTicksOf 30), CtlState.stop ⟨false, false⟩⟩ : LState)).phase = .done) := by
  decide

/-- Claim C1 amended: the inter-cycle wait is an unconditional sleep of the
full poll interval.  With the stop flag held set while the loop sleeps with k
pause-poll ticks remaining, the loop is still inside the sleep after each
j ≤ k ticks (phase run (k - j), not exited), and it exits exactly at tick
k + 1 - so a mid-sleep stop is observed only after the sleep elapses, within
one poll interval plus one pause-poll tick, rather than within one pause-poll
interval as the claim stated. -/
theorem C1_amended_full_sleep :
    ∀ (p k : Nat) (pf : Bool),
      (∀ j, j ≤ k →
        ((loopTick p)^[j] (⟨.run k, ⟨true, pf⟩⟩ : LState)).phase = .run (k - j)
        ∧ ((loopTick p)^[j] (⟨.run k, ⟨true, pf⟩⟩ : LState)).phase ≠ .done)
      ∧ ((loopTick p)^[k + 1] (⟨.run k, ⟨true, pf⟩⟩ : LState)).phase = .done := by
  intro p k pf
  constructor
  · intro j hj
    rw [loopRunIter p ⟨true, pf⟩ j k hj]
    exact ⟨rfl, fun h => Phase.noConfusion h⟩
  · rw [Function.iterate_succ_apply', loopRunIter p ⟨true, pf⟩ k k le_rfl]
    have h0 : k - k = 0 := Nat.sub_self k
    rw [h0]
    rfl

theorem C1_amended_witness :
    (((loopTick 120)^[1] (⟨.run 3, ⟨true, false⟩⟩ : LState)).phase = .run 2
      ∧ ((loopTick 120)^[1] (⟨.run 3, ⟨true, false⟩⟩ : LState)).phase ≠ .done)
    ∧ ((loopTick 120)^[4] (⟨.run 3, ⟨true, false⟩⟩ : LState)).phase = .done :=
  ⟨(C1_amended_full_sleep 120 3 false).1 1 (by decide), (C1_amended_full_sleep 120 3 false).2⟩

/-- Claim C2: in every state produced during an atomic snapshot write the
target path holds either the previous contents or the complete new document
(never a partial serialization, which only ever reaches the distinct
temporary sibling file); the final state - installed by the single atomic
rename - holds the complete new document and has every parent directory
created; and no path other than the target and its temporary sibling is
touched. -/
theorem C2_atomic_snapshot :
    ∀ (α : Type) (dumps : α → String) (fs : FS) (path : String) (payload : α),
      tmpName path ≠ path
      ∧ (∀ s ∈ atomic_write_json α dumps fs path payload,
          s.files path = fs.files path ∨ s.files path = some (dumps payload))
      ∧ (atomic_write_json α dumps fs path payload).getLast?
          = some (fsRename (fsWriteFile (fsMkdirParents fs path) (tmpName path) (dumps payload))
              (tmpName path) path)
      ∧ (fsRename (fsWriteFile (fsMkdirParents fs path) (tmpName path) (dumps payload))
          (tmpName path) path).files path = some (dumps payload)
      ∧ (∀ d ∈ parentDirs path,
          (fsRename (fsWriteFile (fsMkdirParents fs path) (tmpName path) (dumps payload))
            (tmpName path) path).dirs d = true)
      ∧ (∀ s ∈ atomic_write_json α dumps fs path payload, ∀ q, q ≠ path → q ≠ tmpName path →
          s.files q = fs.files q) := by
  intro α dumps fs path payload
  have htmp : tmpName path ≠ path := by
    intro h
    have hlen := congrArg String.length h
    rw [tmpName, String.length_append] at hlen
    have h4 : ".tmp".length = 4 := by decide
    omega
  have hpt : path ≠ tmpName path := fun h => htmp h.symm
  refine ⟨htmp, ?_, ?_, ?_, ?_, ?_⟩
  · intro s hs
    simp only [atomic_write_json, List.mem_append, List.mem_cons, List.mem_map,
      List.mem_range] at hs
    rcases hs with (rfl | ⟨k, _, rfl⟩) | (rfl | hnil)
    · exact Or.inl rfl
    · left
      simp [fsWriteFile, fsMkdirParents, hpt]
    · right
      simp [fsRename, fsWriteFile, fsMkdirParents]
    · exact absurd hnil (List.not_mem_nil s)
  · simp only [atomic_write_json]
    exact List.getLast?_concat _
  · simp [fsRename, fsWriteFile]
  · intro d hd
    simp [fsRename, fsWriteFile, fsMkdirParents, hd]
  · intro s hs q hq hqt
    simp only [atomic_write_json, List.mem_append, List.mem_cons, List.mem_map,
      List.mem_range] at hs
    rcases hs with (rfl | ⟨k, _, rfl⟩) | (rfl | hnil)
    · rfl
    · simp [fsWriteFile, fsMkdirParents, hqt]
    · simp [fsRename, fsWriteFile, fsMkdirParents, hq, hqt]
    · exact absurd hnil (List.not_mem_nil s)

theorem C2_witness :
    tmpName "data/job_snapshot.json" ≠ "data/job_snapshot.json"
    ∧ (fsRename
        (fsWriteFile (fsMkdirParents ⟨fun _ => none, fun _ => false⟩ "data/job_snapshot.json")
          (tmpName "data/job_snapshot.json") (Nat.repr 7))
        (tmpName "data/job_snapshot.json") "data/job_snapshot.json").files
          "data/job_snapshot.json" = some (Nat.repr 7)
    ∧ (fsRename
        (fsWriteFile (fsMkdirParents ⟨fun _ => none, fun _ => false⟩ "data/job_snapshot.json")
          (tmpName "data/job_snapshot.json") (Nat.repr 7))
        (tmpName "data/job_snapshot.json") "data/job_snapshot.json").dirs "data" = true :=
  ⟨(C2_atomic_snapshot Nat Nat.repr ⟨fun _ => none, fun _ => false⟩ "data/job_snapshot.json" 7).1,
   (C2_atomic_snapshot Nat Nat.repr ⟨fun _ => none, fun _ => false⟩ "data/job_snapshot.json" 7).2.2.2.1,
   (C2_atomic_snapshot Nat Nat.repr ⟨fun _ => none, fun _ => false⟩ "data/job_snapshot.json" 7).2.2.2.2.1
     "data" (by decide)⟩

/-- Claim C4 counterexample: for a backend job with runtime_sec 500 and no
tracked expected duration, the produced record has runtime_sec = some 500 and
expected_duration_sec = 0 - both non-null - yet late_by_sec = 0, while
max(0, runtime_sec - expected_duration_sec) = 500.  So late_by_sec is not
max(0, runtime - expected) whenever both fields are non-null. -/
theorem C4_counterexample :
    (fetch_jobs_rfc [("Z_FI_01", "", 0)] [etJobRun500] []).map
        (fun x => (x.runtime_sec, x.expected_duration_sec, x.late_by_sec)) = [(some 500, 0, 0)]
    ∧ ¬ ((0 : Int) = max 0 ((500 : Int) - 0)) := by
  decide

/-- Claim C4 amended: every record produced by the fetch adapter carries
late_by_sec = lateByCalc expected runtime; lateByCalc equals
max(0, runtime - expected) whenever runtime is non-null and expected is
positive, and equals 0 when runtime is null or expected is zero (a job with
no configured expected duration is never marked late); in particular
runtime_sec 500 with expected_duration_sec 300 yields late_by_sec 200. -/
theorem C4_late_by :
    (∀ (tracked : List (String × String × Int)) (et_jobs : List EtJob) (et_steps : List EtStep)
        (jr : JobRec), jr ∈ fetch_jobs_rfc tracked et_jobs et_steps →
          jr.late_by_sec = lateByCalc jr.expected_duration_sec jr.runtime_sec)
    ∧ (∀ e r : Int, 0 < e → lateByCalc e (some r) = max 0 (r - e))
    ∧ (∀ e : Int, lateByCalc e none = 0)
    ∧ (∀ r : Int, lateByCalc 0 (some r) = 0)
    ∧ (fetch_jobs_rfc [("Z_FI_01", "", 300)] [etJobRun500] []).map
        (fun x => (x.runtime_sec, x.expected_duration_sec, x.late_by_sec)) =
        [(some 500, 300, 200)] := by
  refine ⟨?_, ?_, ?_, ?_, by decide⟩
  · intro tracked et_jobs et_steps jr hjr
    rw [fetchJobsEqMap] at hjr
    obtain ⟨j, _, rfl⟩ := List.mem_map.mp hjr
    rfl
  · intro e r he
    rw [lateByCalc]
    by_cases h : e ≠ 0 ∧ r ≠ 0 ∧ e < r
    · rw [if_pos h]; omega
    · rw [if_neg h]; push_neg at h; omega
  · intro e; rfl
  · intro r; exact lateByCalcZero (some r)

theorem C4_late_by_witness :
    (0 : Int) < 300 ∧ lateByCalc 300 (some 500) = max 0 ((500 : Int) - 300) :=
  ⟨by decide, C4_late_by.2.1 300 500 (by decide)⟩

/-- Claim C5: stop() from any controller state sets the stop flag and clears
the pause flag; a loop paused at the while condition re-checks its flags after
a single pause sleep (250 ms, sub-second) instead of blocking, and once stop()
has been applied the very next check exits the loop - so a paused loop
observes stop and terminates rather than sleeping in PAUSED forever. -/
theorem C5_stop_unblocks_paused :
    (∀ c : CtlState, (CtlState.stop c).stop_flag = true ∧ (CtlState.stop c).pause_flag = false)
    ∧ (∀ (p : Nat) (f : CtlState), f.pause_flag = true → f.stop_flag = false →
        loopTick p ⟨.run 0, f⟩ = ⟨.run 0, f⟩)
    ∧ pauseSleepMs < 1000
    ∧ (∀ (p : Nat) (f : CtlState), loopTick p ⟨.run 0, CtlState.stop f⟩ = ⟨.done, CtlState.stop f⟩) := by
  refine ⟨fun c => ⟨rfl, rfl⟩, ?_, by decide, fun p f => rfl⟩
  intro p f hp hs
  simp [loopTick, hp, hs]

theorem C5_stop_unblocks_paused_witness :
    ((⟨false, true⟩ : CtlState).pause_flag = true)
    ∧ ((⟨false, true⟩ : CtlState).stop_flag = false)
    ∧ loopTick 120 ⟨.run 0, ⟨false, true⟩⟩ = ⟨.run 0, ⟨false, true⟩⟩
    ∧ loopTick 120 ⟨.run 0, CtlState.stop ⟨false, true⟩⟩ = ⟨.done, CtlState.stop ⟨false, true⟩⟩ :=
  ⟨rfl, rfl, C5_stop_unblocks_paused.2.1 120 ⟨false, true⟩ rfl rfl,
   C5_stop_unblocks_paused.2.2.2 120 ⟨false, true⟩⟩

/-- Claim C6: the timestamp conversion yields the combined
YYYY-MM-DDTHH:MM:SS rendering when the stripped date token is 8 digits and
the stripped time token has at least 6 digits, yields the date-only
YYYY-MM-DD rendering when only the date token is valid, and yields null when
the date token is absent or malformed; in particular 20260221 with 143000
gives 2026-02-21T14:30:00, 20260221 with an empty time gives 2026-02-21, and
an empty or absent date gives null. -/
theorem C6_dt_str :
    (∀ d t : Option String,
        ¬ ((pyStrip (d.getD "")).length = 8 ∧ pyIsDigit (pyStrip (d.getD "")) = true) →
          dt_str d t = none)
    ∧ (∀ d t : Option String,
        ((pyStrip (d.getD "")).length = 8 ∧ pyIsDigit (pyStrip (d.getD "")) = true) →
        (pyStrip (t.getD "") ≠ "" ∧ 6 ≤ (pyStrip (t.getD "")).length
          ∧ pyIsDigit (pyStrip (t.getD "")) = true) →
          dt_str d t = some (pySlice (pyStrip (d.getD "")) 0 4 ++ "-"
            ++ pySlice (pyStrip (d.getD "")) 4 6 ++ "-" ++ pySlice (pyStrip (d.getD "")) 6 8
            ++ "T" ++ pySlice (pyStrip (t.getD "")) 0 2 ++ ":"
            ++ pySlice (pyStrip (t.getD "")) 2 4 ++ ":" ++ pySlice (pyStrip (t.getD "")) 4 6))
    ∧ (∀ d t : Option String,
        ((pyStrip (d.getD "")).length = 8 ∧ pyIsDigit (pyStrip (d.getD "")) = true) →
        ¬ (pyStrip (t.getD "") ≠ "" ∧ 6 ≤ (pyStrip (t.getD "")).length
          ∧ pyIsDigit (pyStrip (t.getD "")) = true) →
          dt_str d t = some (pySlice (pyStrip (d.getD "")) 0 4 ++ "-"
            ++ pySlice (pyStrip (d.getD "")) 4 6 ++ "-" ++ pySlice (pyStrip (d.getD "")) 6 8))
    ∧ dt_str (some "20260221") (some "143000") = some "2026-02-21T14:30:00"
    ∧ dt_str (some "20260221") (some "") = some "2026-02-21"
    ∧ dt_str (some "") (some "143000") = none
    ∧ dt_str none (some "143000") = none := by
  refine ⟨?_, ?_, ?_, by decide, by decide, by decide, by decide⟩
  · intro d t h
    simp only [dt_str]
    rw [if_neg h]
  · intro d t hd ht
    simp only [dt_str]
    rw [if_pos hd, if_pos ht]
  · intro d t hd ht
    simp only [dt_str]
    rw [if_pos hd, if_neg ht]

theorem C6_dt_str_witness :
    ((pyStrip ((some "20260221").getD "")).length = 8
      ∧ pyIsDigit (pyStrip ((some "20260221").getD "")) = true)
    ∧ dt_str (some "20260221") (some "143000")
        = some (pySlice (pyStrip ((some "20260221").getD "")) 0 4 ++ "-"
            ++ pySlice (pyStrip ((some "20260221").getD "")) 4 6 ++ "-"
            ++ pySlice (pyStrip ((some "20260221").getD "")) 6 8
            ++ "T" ++ pySlice (pyStrip ((some "143000").getD "")) 0 2 ++ ":"
            ++ pySlice (pyStrip ((some "143000").getD "")) 2 4 ++ ":"
            ++ pySlice (pyStrip ((some "143000").getD "")) 4 6) :=
  ⟨by decide, C6_dt_str.2.1 (some "20260221") (some "143000") (by decide) (by decide)⟩

/-- Claim C7: the JSON store read operation returns the caller-supplied
default when the file is missing, when reading raises, or when parsing fails,
and returns the parsed content when parsing succeeds; being a total function
of the access outcome, every case is a normal return - it never raises. -/
theorem C7_read_json_defaults :
    ∀ (V : Type) (parse : String → Option V) (f : FileAccess) (dflt : V),
      (f = .missing → read_json V parse f dflt = dflt)
      ∧ (f = .unreadable → read_json V parse f dflt = dflt)
      ∧ (∀ s, f = .readable s → parse s = none → read_json V parse f dflt = dflt)
      ∧ (∀ s v, f = .readable s → parse s = some v → read_json V parse f dflt = v)
      ∧ (read_json V parse f dflt = dflt
          ∨ ∃ s v, f = .readable s ∧ parse s = some v ∧ read_json V parse f dflt = v) := by
  intro V parse f dflt
  refine ⟨?_, ?_, ?_, ?_, ?_⟩
  · rintro rfl; rfl
  · rintro rfl; rfl
  · rintro s rfl hp; simp [read_json, hp]
  · rintro s v rfl hp; simp [read_json, hp]
  · cases f with
    | missing => exact Or.inl rfl
    | unreadable => exact Or.inl rfl
    | readable s =>
      cases hp : parse s with
      | none => exact Or.inl (by simp [read_json, hp])
      | some v => exact Or.inr ⟨s, v, rfl, hp, by simp [read_json, hp]⟩

theorem C7_read_json_defaults_witness :
    read_json Nat (fun s => if s = "[1]" then some 1 else none) .missing 7 = 7
    ∧ read_json Nat (fun s => if s = "[1]" then some 1 else none) .unreadable 7 = 7
    ∧ read_json Nat (fun s => if s = "[1]" then some 1 else none) (.readable "oops") 7 = 7
    ∧ read_json Nat (fun s => if s = "[1]" then some 1 else none) (.readable "[1]") 7 = 1 :=
  ⟨(C7_read_json_defaults Nat (fun s => if s = "[1]" then some 1 else none) .missing 7).1 rfl,
   (C7_read_json_defaults Nat (fun s => if s = "[1]" then some 1 else none) .unreadable 7).2.1 rfl,
   (C7_read_json_defaults Nat (fun s => if s = "[1]" then some 1 else none)
      (.readable "oops") 7).2.2.1 "oops" rfl (by decide),
   (C7_read_json_defaults Nat (fun s => if s = "[1]" then some 1 else none)
      (.readable "[1]") 7).2.2.2.1 "[1]" 1 rfl (by decide)⟩

/-- Claim C8: the catalog loader fills missing optional columns with their
defaults without raising (expected_duration_sec 0, enabled true, job_user and
group empty; a missing enabled cell likewise defaults to true), coerces
enabled to true exactly when the upper-cased token is one of Y, YES, TRUE, 1,
emits every job name trimmed from its raw cell, keeps exactly the rows whose
trimmed name is nonempty, and discards the rest. -/
theorem C8_load_catalog :
    ∀ src : RawCatalog,
      (src.hasExpected = false → ∀ row ∈ load_job_catalog src, row.expected_duration_sec = 0)
      ∧ (src.hasEnabled = false → ∀ row ∈ load_job_catalog src, row.enabled = true)
      ∧ (src.hasJobUser = false → ∀ row ∈ load_job_catalog src, row.job_user = "")
      ∧ (src.hasGroup = false → ∀ row ∈ load_job_catalog src, row.group = "")
      ∧ (∀ r : RawRow, r.enabled = none → (normRow src r).enabled = true)
      ∧ (src.hasEnabled = true → ∀ (r : RawRow) (s : String), r.enabled = some s →
          ((normRow src r).enabled = true ↔ pyUpper s ∈ enabledTokens))
      ∧ (∀ row ∈ load_job_catalog src, ∃ r ∈ src.rows,
          row = normRow src r ∧ row.job_name = pyStrip (rawName src r) ∧ 0 < row.job_name.length)
      ∧ (∀ r ∈ src.rows, 0 < (pyStrip (rawName src r)).length →
          normRow src r ∈ load_job_catalog src) := by
  intro src
  refine ⟨?_, ?_, ?_, ?_, ?_, ?_, ?_, ?_⟩
  · intro h row hrow
    obtain ⟨⟨r, _, rfl⟩, _⟩ := (loadMemIff src row).mp hrow
    simp [normRow, h]
  · intro h row hrow
    obtain ⟨⟨r, _, rfl⟩, _⟩ := (loadMemIff src row).mp hrow
    show decide (pyUpper (if src.hasEnabled then (r.enabled).getD "Y" else "Y") ∈ enabledTokens)
      = true
    rw [if_neg (by simp [h])]
    decide
  · intro h row hrow
    obtain ⟨⟨r, _, rfl⟩, _⟩ := (loadMemIff src row).mp hrow
    simp [normRow, h]
  · intro h row hrow
    obtain ⟨⟨r, _, rfl⟩, _⟩ := (loadMemIff src row).mp hrow
    simp [normRow, h]
  · intro r hr
    show decide (pyUpper (if src.hasEnabled then (r.enabled).getD "Y" else "Y") ∈ enabledTokens)
      = true
    cases hEn : src.hasEnabled with
    | false =>
      rw [if_neg (by simp [hEn])]
      decide
    | true =>
      rw [if_pos (by simp [hEn]), hr]
      decide
  · intro h r s hs
    show decide (pyUpper (if src.hasEnabled then (r.enabled).getD "Y" else "Y") ∈ enabledTokens)
      = true ↔ pyUpper s ∈ enabledTokens
    rw [if_pos (by simp [h]), hs]
    simp only [Option.getD_some]
    exact decide_eq_true_iff
  · intro row hrow
    obtain ⟨⟨r, hr, rfl⟩, hlen⟩ := (loadMemIff src row).mp hrow
    exact ⟨r, hr, rfl, rfl, hlen⟩
  · intro r hr hlen
    exact (loadMemIff src (normRow src r)).mpr ⟨⟨r, hr, rfl⟩, hlen⟩

theorem C8_load_catalog_witness :
    (normRow srcC8 rawC8a).expected_duration_sec = 0
    ∧ ((normRow srcC8 rawC8a).enabled = true ↔ pyUpper "yes" ∈ enabledTokens)
    ∧ normRow srcC8 rawC8a ∈ load_job_catalog srcC8
    ∧ (normRow srcC8 rawC8b).enabled = true :=
  ⟨(C8_load_catalog srcC8).1 rfl (normRow srcC8 rawC8a)
      ((C8_load_catalog srcC8).2.2.2.2.2.2.2 rawC8a (by decide) (by decide)),
   (C8_load_catalog srcC8).2.2.2.2.2.1 rfl rawC8a "yes" rfl,
   (C8_load_catalog srcC8).2.2.2.2.2.2.2 rawC8a (by decide) (by decide),
   (C8_load_catalog srcC8).2.2.2.2.1 rawC8b rfl⟩

/-- Claim C9: the presenter write-back leaves every track-state entry whose
job name is not in the displayed table unchanged, never deletes an entry
(an existing binding stays bound), and only keys that are displayed, nonempty
job names can change - so entries for jobs no longer in the catalog are
retained. -/
theorem C9_track_state_merge :
    ∀ (names : List String) (tracked : List Bool) (state : String → Option Bool),
      (∀ k, k ∉ names → on_source_data_change names tracked state k = state k)
      ∧ (∀ k v, state k = some v → ∃ w, on_source_data_change names tracked state k = some w)
      ∧ (∀ k, on_source_data_change names tracked state k ≠ state k → k ∈ names ∧ k ≠ "") := by
  intro names tracked state
  have hsub : ∀ k : String, k ∈ (names.zip tracked).map Prod.fst → k ∈ names := by
    intro k hk
    obtain ⟨⟨a, b⟩, hab, rfl⟩ := List.mem_map.mp hk
    exact (List.of_mem_zip hab).1
  refine ⟨?_, ?_, ?_⟩
  · intro k hk
    exact trackFoldSkip (names.zip tracked) state k (fun hm => hk (hsub k hm))
  · intro k v hv
    cases hres : on_source_data_change names tracked state k with
    | none =>
      exact absurd (trackFoldNone (names.zip tracked) state k hres) (by simp [hv])
    | some w => exact ⟨w, rfl⟩
  · intro k hk
    obtain ⟨hm, hne⟩ := trackFoldChange (names.zip tracked) state k hk
    exact ⟨hsub k hm, hne⟩

theorem C9_track_state_merge_witness :
    on_source_data_change namesC9 trackedC9 stateC9 "Z_OLD" = stateC9 "Z_OLD"
    ∧ (∃ w, on_source_data_change namesC9 trackedC9 stateC9 "Z_OLD" = some w)
    ∧ on_source_data_change namesC9 trackedC9 stateC9 "Z_FI_01" = some false :=
  ⟨(C9_track_state_merge namesC9 trackedC9 stateC9).1 "Z_OLD" (by decide),
   (C9_track_state_merge namesC9 trackedC9 stateC9).2.1 "Z_OLD" true (by decide),
   by decide⟩

/-- Claim C10: the fetch adapter does not restrict its output to the
requested tracked-job list - the output is exactly the map of the
normalization over every response job record, with equal length - and a job
whose stripped name is not among the tracked names gets
expected_duration_sec 0 and hence late_by_sec 0 instead of being dropped. -/
theorem C10_fetch_keeps_all :
    ∀ (tracked : List (String × String × Int)) (et_jobs : List EtJob) (et_steps : List EtStep),
      fetch_jobs_rfc tracked et_jobs et_steps = et_jobs.map (mkJobRec tracked et_steps)
      ∧ (fetch_jobs_rfc tracked et_jobs et_steps).length = et_jobs.length
      ∧ (∀ j ∈ et_jobs,
          pyStrip ((j.JOBNAME).getD "") ∉ tracked.map (fun t => t.1) →
            (mkJobRec tracked et_steps j).expected_duration_sec = 0
            ∧ (mkJobRec tracked et_steps j).late_by_sec = 0) := by
  intro tracked et_jobs et_steps
  refine ⟨fetchJobsEqMap tracked et_jobs et_steps, ?_, ?_⟩
  · rw [fetchJobsEqMap]; exact List.length_map et_jobs (mkJobRec tracked et_steps)
  · intro j _ hn
    have h0 : expectedMap tracked (pyStrip ((j.JOBNAME).getD "")) = none := by
      rw [expectedMap]
      exact expectedMapFoldSkip tracked (fun _ => none) (pyStrip ((j.JOBNAME).getD "")) hn
    constructor
    · simp [mkJobRec, h0]
    · simp [mkJobRec, h0, lateByCalcZero]

theorem C10_fetch_keeps_all_witness :
    (mkJobRec [("Z_FI_99", "", 10)] [] etJobRun500).expected_duration_sec = 0
    ∧ (mkJobRec [("Z_FI_99", "", 10)] [] etJobRun500).late_by_sec = 0 :=
  (C10_fetch_keeps_all [("Z_FI_99", "", 10)] [etJobRun500] []).2.2 etJobRun500
    (by decide) (by decide)
